import Mathlib

/-!
Verification of the ReplaceableGPT application-automation core against its
specification.  The definitions below are a shallow embedding of
`src/drivers/driver.py` and `src/drivers/linkedin_driver.py`.

The browser (Selenium) is an external collaborator: its behaviour is
modelled by oracle functions describing what each query finds, and by
explicit traces of the actions the code performs on it.  Two pieces of
Selenium semantics are relied on and are witnessed inside the source
itself: `find_element` raises `NoSuchElementException` when the element is
absent (the source catches exactly that exception in
`get_next_or_review_button`), and `send_keys` appends keystrokes to an
input's current value rather than replacing it (the source calls
`clear()` before `send_keys` when it needs replacement, in
`handle_contact_info_page`).
-/

namespace ReplaceableGPT

/-- An opaque cookie record as returned by the browser (key/value attributes).
The core never inspects its contents. -/
structure Cookie where
  attrs : List (String × String)
  deriving DecidableEq, Repr

/-- `CookieCache` from `driver.py`: cookies plus the capture timestamp.
Timestamps are modelled as rationals (the source uses `time.time()` floats). -/
structure CookieCache where
  cookies : List Cookie
  last_updated : ℚ
  deriving DecidableEq, Repr

/-- `self.max_age = 60.0 * 60`, fixed in the constructor for every instance. -/
def CookieCache.max_age : ℚ := 60 * 60

/-- `is_valid`: `return self.cookies and self.last_updated + self.max_age > time.time()`.
An empty Python list is falsy, so the conjunction is false when `cookies` is
empty; `now` stands for the `time.time()` call. -/
def CookieCache.is_valid (c : CookieCache) (now : ℚ) : Bool :=
  !c.cookies.isEmpty && decide (c.last_updated + CookieCache.max_age > now)

/-- `save_cache`: overwrites the persisted record with `cache` when `cache`
is truthy (not `None`), otherwise leaves the file untouched.  The first
argument is the current content of the persisted file. -/
def save_cache (file : Option CookieCache) (cache : Option CookieCache) :
    Option CookieCache :=
  match cache with
  | some c => some c
  | none => file

/-- Observable events of the `sign_in_required` decorator: a call to
`driver.sign_in()` and a call to the wrapped function. -/
inductive GateEvent where
  | signInCall
  | funcCall
  deriving DecidableEq, BEq, Repr

/-- The decorator's guard: `not driver.cookie_cache or not driver.cookie_cache.is_valid()`.
`None` is falsy; an existing `CookieCache` object is always truthy. -/
def needsSignIn (cache : Option CookieCache) (now : ℚ) : Bool :=
  match cache with
  | none => true
  | some c => !(c.is_valid now)

/-- `sign_in_required` from `driver.py`: if the driver's cache is absent or
invalid, call `driver.sign_in()`; then unconditionally call the wrapped
function and return its result.  `D` is the driver's state, `signIn` the
driver's (arbitrary, possibly failing) sign-in transition, `func` the
wrapped operation.  The returned list records the calls made. -/
def sign_in_required {D β : Type} (cacheOf : D → Option CookieCache) (now : ℚ)
    (signIn : D → D) (func : D → D × β) (d : D) : D × β × List GateEvent :=
  let step1 : D × List GateEvent :=
    if needsSignIn (cacheOf d) now then (signIn d, [GateEvent.signInCall])
    else (d, [])
  let res := func step1.1
  (res.1, res.2, step1.2 ++ [GateEvent.funcCall])

/-- Browser-level outcomes of the individual steps inside `sign_in`'s `try`
block, together with the cookies the browser would hand back and the current
time.  Each `Ok` flag tells whether the corresponding Selenium call succeeds
or raises. -/
structure SignInEnv where
  navOk : Bool
  userFieldOk : Bool
  passFieldOk : Bool
  submitOk : Bool
  cookies : List Cookie
  now : ℚ

/-- Exceptions raised by the browser collaborator. -/
inductive SeleniumError where
  | noSuchElement
  | webdriverError
  deriving DecidableEq, Repr

/-- The in-memory cookie cache and the persisted cache file of a
`LinkedinDriver`, the two pieces of state the sign-in flow may touch. -/
structure DriverState where
  cache : Option CookieCache
  cacheFile : Option CookieCache
  deriving DecidableEq, Repr

/-- The `try` block of `LinkedinDriver.sign_in`: navigate to the login page,
locate and fill the username field, locate and fill the password field,
click the submit button.  The first failing step raises and aborts the rest
of the block. -/
def signInTryBlock (e : SignInEnv) : Except SeleniumError Unit :=
  if !e.navOk then Except.error SeleniumError.webdriverError
  else if !e.userFieldOk then Except.error SeleniumError.noSuchElement
  else if !e.passFieldOk then Except.error SeleniumError.noSuchElement
  else if !e.submitOk then Except.error SeleniumError.noSuchElement
  else Except.ok ()

/-- `LinkedinDriver.sign_in`: on any exception in the `try` block, log and
return `False` (no state change); otherwise build a fresh `CookieCache`
from the browser's cookies and the current time, install it as
`self.cookie_cache`, persist it with `save_cache`, and return `True`. -/
def sign_in (e : SignInEnv) (st : DriverState) : Bool × DriverState :=
  match signInTryBlock e with
  | Except.error _ => (false, st)
  | Except.ok _ =>
    let c : CookieCache := ⟨e.cookies, e.now⟩
    let st1 : DriverState := { st with cache := some c }
    let st2 : DriverState := { st1 with cacheFile := save_cache st1.cacheFile (some c) }
    (true, st2)

/-- `validate_linkedin_url` from `linkedin_driver.py`:
`url.startswith("https://www.linkedin.com/jobs/view/")`, i.e. the literal is
a prefix of the url's character sequence. -/
def validate_linkedin_url (url : String) : Bool :=
  List.isPrefixOf "https://www.linkedin.com/jobs/view/".data url.data

/-- The configuration dictionary consumed by `LinkedinDriver`.  The keys are
the ones the source reads.  Note that `DEBUG` is a string, not a boolean. -/
structure Config where
  LINKEDIN_USERNAME : String
  LINKEDIN_PASSWORD : String
  PHONE_NUMBER : String
  RESUME_PATH : String
  DEBUG : String
  deriving DecidableEq, Repr

/-- The spec's `submitEnabled` flag as realised by the source: the submit
button is clicked exactly when `self.config["DEBUG"] == "False"`
(`linkedin_driver.py`, the `only submit in when not in debug mode` branch). -/
def submitEnabled (c : Config) : Bool := c.DEBUG == "False"

/-- The spec's `PageKind` classification of an application page. -/
inductive PageKind where
  | contactInfo
  | resumePage
  | additionalQuestions
  | unknown
  deriving DecidableEq, Repr

/-- Exact-match dispatch on the page heading, from the `match page_title.text`
statement in `apply_to`. -/
def classify (t : String) : PageKind :=
  match t with
  | "Contact info" => PageKind.contactInfo
  | "Resume" => PageKind.resumePage
  | "Additional Questions" => PageKind.additionalQuestions
  | _ => PageKind.unknown

/-- A Selenium `WebElement` handle.  Only its text matters to the core. -/
structure WebElement where
  text : String
  deriving DecidableEq, Repr

/-- Python truthiness of a `WebElement` object: an object reference is
always truthy, which is why the source's `if not page_title` branch can
never run (`find_element` raises instead of returning a falsy value). -/
def WebElement.truthy (_e : WebElement) : Bool := true

/-- What the browser shows during one iteration of the `apply_to` page loop:
whether a `Submit application` button is found by `find_elements`, whether
the `h3.t-16` heading is found by `find_element` (`false` means
`NoSuchElementException` is raised), the heading's text, and whether the
page handler dispatched for that heading completes without a browser
exception (for instance, whether its continue button exists). -/
structure BrowserStep where
  submitPresent : Bool
  titleFound : Bool
  titleText : String
  handlerOk : Bool

/-- Actions `apply_to` performs on the browser, in order. -/
inductive Action where
  | navigate (url : String)
  | clickApply
  | scrollSubmit
  | clickSubmit
  | runHandler (k : PageKind)
  deriving DecidableEq, Repr

/-- Outcome of a run of (part of) `apply_to`: either the function returns a
boolean, or an uncaught exception escapes to the caller. -/
inductive FlowResult where
  | ok (b : Bool)
  | exn
  deriving DecidableEq, Repr

/-- `max_pages = 1000` from `apply_to`. -/
def max_pages : Nat := 1000

/-- The body of `apply_to`'s `while current_pages < max_pages` loop.
`current` is the value of `current_pages` on entry, and `fuel` is the
number of iterations the guard still allows, i.e. `max_pages - current_pages`;
the loop runs while `fuel > 0`, exactly as the source loop runs while
`current_pages < max_pages`.  `br i` describes the page the browser shows
to the iteration whose entry value of `current_pages` is `i` (page changes
made by handlers are captured by `br` depending on `i`).  Returns the
function's outcome, the trace of browser actions, and the final value of
`current_pages`.  Falling out of the loop reaches the source's trailing
`return True`. -/
def applyLoopAux (cfg : Config) (br : Nat → BrowserStep) :
    Nat → Nat → FlowResult × List Action × Nat
  | current, 0 => (FlowResult.ok true, [], current)
  | current, fuel + 1 =>
    let s := br current
    if s.submitPresent then
      -- scroll the submit button into view, log, click only when
      -- `config["DEBUG"] == "False"`, break out of the loop, return True
      (FlowResult.ok true,
        Action.scrollSubmit ::
          (if cfg.DEBUG == "False" then [Action.clickSubmit] else []),
        current + 1)
    else if !s.titleFound then
      -- `find_element` raises NoSuchElementException; nothing catches it
      (FlowResult.exn, [], current + 1)
    else
      let page_title : WebElement := ⟨s.titleText⟩
      if !page_title.truthy then
        -- dead code in the source: a WebElement is always truthy
        (FlowResult.ok false, [], current + 1)
      else
        match classify page_title.text with
        | PageKind.unknown =>
          -- log the unknown title and continue the loop
          applyLoopAux cfg br (current + 1) fuel
        | k =>
          if s.handlerOk then
            let r := applyLoopAux cfg br (current + 1) fuel
            (r.1, Action.runHandler k :: r.2.1, r.2.2)
          else
            -- the handler's browser call raises; nothing catches it
            (FlowResult.exn, [Action.runHandler k], current + 1)

/-- The page loop of `apply_to`, entered with `current_pages = current` and
bound `maxp`. -/
def applyLoop (cfg : Config) (br : Nat → BrowserStep) (current maxp : Nat) :
    FlowResult × List Action × Nat :=
  applyLoopAux cfg br current (maxp - current)

/-- The browser's behaviour over a whole `apply_to` run: whether the
wait for an enabled apply button succeeds (its `WebDriverWait` failure is
caught and turned into `None`), and the page observations of each loop
iteration. -/
structure Browser where
  applyButton : Bool
  step : Nat → BrowserStep

/-- `LinkedinDriver.apply_to` (the decorated function's body): validate the
URL (warn and return `False` before touching the browser when invalid),
navigate to it, obtain and force-click the apply button (`None` returns
`False`), then run the page loop with `max_pages = 1000`. -/
def apply_to (cfg : Config) (br : Browser) (url : String) :
    FlowResult × List Action × Nat :=
  if !validate_linkedin_url url then
    (FlowResult.ok false, [], 0)
  else if !br.applyButton then
    (FlowResult.ok false, [Action.navigate url], 0)
  else
    let r := applyLoop cfg br.step 0 max_pages
    (r.1, Action.navigate url :: Action.clickApply :: r.2.1, r.2.2)

/-- Selenium `clear()` on a text input: the value becomes empty. -/
def WebInput.clear (_v : String) : String := ""

/-- Selenium `send_keys(t)` on a text input: the keystrokes are appended to
the current value (the source calls `clear()` first when it wants to
replace the value). -/
def WebInput.send_keys (v t : String) : String := v ++ t

/-- A text input of the contact-info page: the label text captured at
construction and the input element's current `value` attribute. -/
structure TextInputEl where
  label : String
  value : String
  deriving DecidableEq, Repr

/-- The body of `handle_contact_info_page`'s loop for one text input: when
the label is `Mobile phone number` and the current value differs from the
configured phone number, `clear()` then `send_keys(phone)`.  Returns the
updated field and the number of writes performed (1 or 0). -/
def handle_contact_info_field (phone : String) (f : TextInputEl) :
    TextInputEl × Nat :=
  if f.label == "Mobile phone number" && f.value != phone then
    ({ f with value := WebInput.send_keys (WebInput.clear f.value) phone }, 1)
  else (f, 0)

/-- `LinkedinDriver.handle_contact_info_page` restricted to its effect on
the text inputs: iterate over the fields, rewriting the phone field when
its value differs from the configured number.  Returns the updated fields
and the total number of writes.  (The trailing click on the continue
button does not touch any field.) -/
def handle_contact_info_page (phone : String) (fields : List TextInputEl) :
    List TextInputEl × Nat :=
  match fields with
  | [] => ([], 0)
  | f :: rest =>
    let r1 := handle_contact_info_field phone f
    let r2 := handle_contact_info_page phone rest
    (r1.1 :: r2.1, r1.2 + r2.2)

/-- `LnTextInput.answer_default`: `self.input.send_keys("0")` (the `if
self.input` guard is always true, the element was obtained by a successful
`find_element`).  Acts on the input's current value. -/
def LnTextInput.answer_default (v : String) : String :=
  WebInput.send_keys v "0"

/-- `LnSelectInput.answer_default`: when options exist, click the select
and then click `options[-1]`, the last option in document order
(`find_elements` returns document order).  Returns the clicked option. -/
def LnSelectInput.answer_default {α : Type} (options : List α) : Option α :=
  if 0 < options.length then options.getLast? else none

/-- `LnRadioInput.answer_default`: when options exist, force-click
`options[-1]`, the last option in document order.  Returns the clicked
option. -/
def LnRadioInput.answer_default {α : Type} (options : List α) : Option α :=
  if 0 < options.length then options.getLast? else none

/-- A loop iteration that neither breaks, returns, nor raises: no submit
button, the heading is found, and either it classifies as `unknown` (the
loop just logs) or the dispatched handler completes. -/
def stepContinues (s : BrowserStep) : Bool :=
  !s.submitPresent && (s.titleFound &&
    (decide (classify s.titleText = PageKind.unknown) || s.handlerOk))

/-- The run of the page loop started at `start` with bound `maxp` finds a
submit-ready control, first doing so at iteration `i`: every earlier
iteration continues normally and iteration `i` sees the submit button. -/
def findsSubmitAt (br : Nat → BrowserStep) (start maxp i : Nat) : Prop :=
  start ≤ i ∧ i < maxp ∧ (br i).submitPresent = true ∧
    ∀ j, start ≤ j → j < i → stepContinues (br j) = true

/-- A valid cookie cache used in concrete instantiations. -/
def cacheW : CookieCache := ⟨[⟨[("name", "li_at")]⟩], 1000⟩

/-- A concrete configuration with `DEBUG = "True"` (submission disabled). -/
def cfgDbg : Config := ⟨"user", "pass", "5551234", "resume.pdf", "True"⟩

/-- A concrete configuration with `DEBUG = "False"` (submission enabled). -/
def cfgLive : Config := ⟨"user", "pass", "5551234", "resume.pdf", "False"⟩

/-- A browser whose pages always show the submit button. -/
def brSubmit : Nat → BrowserStep := fun _ => ⟨true, true, "", true⟩

/-- A browser whose pages never show a submit button and always carry an
unrecognised heading. -/
def brUnknown : Nat → BrowserStep := fun _ => ⟨false, true, "Work authorization", true⟩

/-- A browser whose first application page has neither a submit button nor
a readable `h3.t-16` heading. -/
def brNoTitle : Nat → BrowserStep := fun _ => ⟨false, false, "", true⟩

/-- A sign-in environment whose login-page navigation fails. -/
def envNavFail : SignInEnv := ⟨false, true, true, true, [], 0⟩

/-- A sign-in environment in which every browser step succeeds. -/
def envOk : SignInEnv := ⟨true, true, true, true, [⟨[("name", "li_at")]⟩], 42⟩

/-- Unfolding the loop body when the submit button is present: scroll it
into view, click it exactly when `DEBUG == "False"`, break, return `True`. -/
theorem applyLoopAux_submit_step (cfg : Config) (br : Nat → BrowserStep)
    (current fuel : Nat) (h : (br current).submitPresent = true) :
    applyLoopAux cfg br current (fuel + 1) =
      (FlowResult.ok true,
        Action.scrollSubmit ::
          (if cfg.DEBUG == "False" then [Action.clickSubmit] else []),
        current + 1) := by
  simp [applyLoopAux, h]

/-- Unfolding the loop body when the heading lookup raises: the exception
escapes. -/
theorem applyLoopAux_title_exn_step (cfg : Config) (br : Nat → BrowserStep)
    (current fuel : Nat) (h1 : (br current).submitPresent = false)
    (h2 : (br current).titleFound = false) :
    applyLoopAux cfg br current (fuel + 1) = (FlowResult.exn, [], current + 1) := by
  simp [applyLoopAux, h1, h2]

/-- Unfolding the loop body on an unrecognised heading: log and continue. -/
theorem applyLoopAux_unknown_step (cfg : Config) (br : Nat → BrowserStep)
    (current fuel : Nat) (h1 : (br current).submitPresent = false)
    (h2 : (br current).titleFound = true)
    (h3 : classify (br current).titleText = PageKind.unknown) :
    applyLoopAux cfg br current (fuel + 1) = applyLoopAux cfg br (current + 1) fuel := by
  simp [applyLoopAux, h1, h2, WebElement.truthy, h3]

/-- Unfolding the loop body on a recognised heading whose handler
completes: run the handler and continue. -/
theorem applyLoopAux_handler_step (cfg : Config) (br : Nat → BrowserStep)
    (current fuel : Nat) (h1 : (br current).submitPresent = false)
    (h2 : (br current).titleFound = true) (k : PageKind)
    (h3 : classify (br current).titleText = k) (hk : k ≠ PageKind.unknown)
    (h4 : (br current).handlerOk = true) :
    applyLoopAux cfg br current (fuel + 1) =
      ((applyLoopAux cfg br (current + 1) fuel).1,
        Action.runHandler k :: (applyLoopAux cfg br (current + 1) fuel).2.1,
        (applyLoopAux cfg br (current + 1) fuel).2.2) := by
  cases k with
  | unknown => exact absurd rfl hk
  | contactInfo => simp [applyLoopAux, h1, h2, WebElement.truthy, h3, h4]
  | resumePage => simp [applyLoopAux, h1, h2, WebElement.truthy, h3, h4]
  | additionalQuestions => simp [applyLoopAux, h1, h2, WebElement.truthy, h3, h4]

/-- Unfolding the loop body on a recognised heading whose handler raises:
the exception escapes. -/
theorem applyLoopAux_handler_exn_step (cfg : Config) (br : Nat → BrowserStep)
    (current fuel : Nat) (h1 : (br current).submitPresent = false)
    (h2 : (br current).titleFound = true) (k : PageKind)
    (h3 : classify (br current).titleText = k) (hk : k ≠ PageKind.unknown)
    (h4 : (br current).handlerOk = false) :
    applyLoopAux cfg br current (fuel + 1) =
      (FlowResult.exn, [Action.runHandler k], current + 1) := by
  cases k with
  | unknown => exact absurd rfl hk
  | contactInfo => simp [applyLoopAux, h1, h2, WebElement.truthy, h3, h4]
  | resumePage => simp [applyLoopAux, h1, h2, WebElement.truthy, h3, h4]
  | additionalQuestions => simp [applyLoopAux, h1, h2, WebElement.truthy, h3, h4]

/-- The final value of `current_pages` never exceeds its entry value plus
the number of iterations the guard allows. -/
theorem applyLoopAux_pages_le (cfg : Config) (br : Nat → BrowserStep) :
    ∀ fuel current, (applyLoopAux cfg br current fuel).2.2 ≤ current + fuel := by
  intro fuel
  induction fuel with
  | zero =>
    intro current
    simp [applyLoopAux]
  | succ f ih =>
    intro current
    by_cases h1 : (br current).submitPresent = true
    · rw [applyLoopAux_submit_step cfg br current f h1]
      show current + 1 ≤ current + (f + 1)
      omega
    · have h1f : (br current).submitPresent = false := by simpa using h1
      by_cases h2 : (br current).titleFound = true
      · by_cases h3 : classify (br current).titleText = PageKind.unknown
        · rw [applyLoopAux_unknown_step cfg br current f h1f h2 h3]
          have := ih (current + 1)
          omega
        · by_cases h4 : (br current).handlerOk = true
          · rw [applyLoopAux_handler_step cfg br current f h1f h2 _ rfl h3 h4]
            show (applyLoopAux cfg br (current + 1) f).2.2 ≤ current + (f + 1)
            have := ih (current + 1)
            omega
          · have h4f : (br current).handlerOk = false := by simpa using h4
            rw [applyLoopAux_handler_exn_step cfg br current f h1f h2 _ rfl h3 h4f]
            show current + 1 ≤ current + (f + 1)
            omega
      · have h2f : (br current).titleFound = false := by simpa using h2
        rw [applyLoopAux_title_exn_step cfg br current f h1f h2f]
        show current + 1 ≤ current + (f + 1)
        omega

/-- When every page is unrecognised (and the heading is always readable),
the loop runs through all its allowed iterations and falls out to the
trailing `return True` with an empty action trace. -/
theorem applyLoopAux_all_unknown (cfg : Config) (br : Nat → BrowserStep)
    (h : ∀ i, (br i).submitPresent = false ∧ (br i).titleFound = true ∧
      classify (br i).titleText = PageKind.unknown) :
    ∀ fuel current,
      applyLoopAux cfg br current fuel = (FlowResult.ok true, [], current + fuel) := by
  intro fuel
  induction fuel with
  | zero =>
    intro current
    simp [applyLoopAux]
  | succ f ih =>
    intro current
    obtain ⟨h1, h2, h3⟩ := h current
    rw [applyLoopAux_unknown_step cfg br current f h1 h2 h3, ih (current + 1)]
    have harith : current + 1 + f = current + (f + 1) := by omega
    rw [harith]

/-- The submit button is clicked only when `DEBUG == "False"`, over the
whole run of the loop. -/
theorem applyLoopAux_click_enabled (cfg : Config) (br : Nat → BrowserStep) :
    ∀ fuel current,
      Action.clickSubmit ∈ (applyLoopAux cfg br current fuel).2.1 →
      submitEnabled cfg = true := by
  intro fuel
  induction fuel with
  | zero =>
    intro current h
    simp [applyLoopAux] at h
  | succ f ih =>
    intro current h
    by_cases h1 : (br current).submitPresent = true
    · rw [applyLoopAux_submit_step cfg br current f h1] at h
      by_cases hd : (cfg.DEBUG == "False") = true
      · exact hd
      · simp [hd] at h
    · have h1f : (br current).submitPresent = false := by simpa using h1
      by_cases h2 : (br current).titleFound = true
      · by_cases h3 : classify (br current).titleText = PageKind.unknown
        · rw [applyLoopAux_unknown_step cfg br current f h1f h2 h3] at h
          exact ih (current + 1) h
        · by_cases h4 : (br current).handlerOk = true
          · rw [applyLoopAux_handler_step cfg br current f h1f h2 _ rfl h3 h4] at h
            simp at h
            exact ih (current + 1) h
          · have h4f : (br current).handlerOk = false := by simpa using h4
            rw [applyLoopAux_handler_exn_step cfg br current f h1f h2 _ rfl h3 h4f] at h
            simp at h
      · have h2f : (br current).titleFound = false := by simpa using h2
        rw [applyLoopAux_title_exn_step cfg br current f h1f h2f] at h
        simp at h

/-- A run that first finds the submit button at iteration `i` (all earlier
iterations continuing normally) returns `True`, scrolls the button into
view, and clicks it exactly when `DEBUG == "False"`. -/
theorem applyLoopAux_findsSubmit (cfg : Config) (br : Nat → BrowserStep) :
    ∀ fuel current i, current ≤ i → i < current + fuel →
      (br i).submitPresent = true →
      (∀ j, current ≤ j → j < i → stepContinues (br j) = true) →
      ((applyLoopAux cfg br current fuel).1 = FlowResult.ok true ∧
        Action.scrollSubmit ∈ (applyLoopAux cfg br current fuel).2.1 ∧
        (Action.clickSubmit ∈ (applyLoopAux cfg br current fuel).2.1 ↔
          submitEnabled cfg = true)) := by
  intro fuel
  induction fuel with
  | zero =>
    intro current i hle hlt _ _
    exact absurd hlt (by omega)
  | succ f ih =>
    intro current i hle hlt hsub hcont
    rcases Nat.eq_or_lt_of_le hle with heq | hlt2
    · subst heq
      rw [applyLoopAux_submit_step cfg br current f hsub]
      refine ⟨rfl, by simp, ?_⟩
      by_cases hd : (cfg.DEBUG == "False") = true <;> simp [submitEnabled, hd]
    · have hc := hcont current (Nat.le_refl _) hlt2
      simp only [stepContinues, Bool.and_eq_true, Bool.not_eq_true',
        Bool.or_eq_true, decide_eq_true_eq] at hc
      obtain ⟨h1, h2, h3⟩ := hc
      have hrec := ih (current + 1) i (by omega) (by omega) hsub
        (fun j hj1 hj2 => hcont j (by omega) hj2)
      by_cases hu : classify (br current).titleText = PageKind.unknown
      · rw [applyLoopAux_unknown_step cfg br current f h1 h2 hu]
        exact hrec
      · have hok : (br current).handlerOk = true := by
          rcases h3 with h3 | h3
          · exact absurd h3 hu
          · exact h3
        rw [applyLoopAux_handler_step cfg br current f h1 h2 _ rfl hu hok]
        refine ⟨hrec.1, List.mem_cons_of_mem _ hrec.2.1, ?_⟩
        constructor
        · intro hmem
          rcases List.mem_cons.mp hmem with hbad | hmem2
          · simp at hbad
          · exact hrec.2.2.mp hmem2
        · intro hen
          exact List.mem_cons_of_mem _ (hrec.2.2.mpr hen)

/-- Claim C2: for every session cache, `is_valid` holds iff the cookie list
is non-empty and `now < capturedAt + maxAge`; it is false for an empty
cookie list regardless of the timestamp, and false at the exact boundary
`now = capturedAt + maxAge`. -/
theorem cookie_cache_validity (c : CookieCache) (now : ℚ) :
    (c.is_valid now = true ↔
      (c.cookies ≠ [] ∧ now < c.last_updated + CookieCache.max_age)) ∧
    (c.cookies = [] → c.is_valid now = false) ∧
    c.is_valid (c.last_updated + CookieCache.max_age) = false := by
  refine ⟨?_, ?_, ?_⟩
  · simp [CookieCache.is_valid, List.isEmpty_iff, gt_iff_lt, and_comm]
  · intro h
    simp [CookieCache.is_valid, h]
  · simp [CookieCache.is_valid]

/-- Concrete instance of `cookie_cache_validity`: a cache captured at time
1000 with one cookie is valid at 2000, an empty-cookie cache is invalid at
the same time, and the one-cookie cache is invalid exactly at
`capturedAt + maxAge`. -/
theorem cookie_cache_validity_case :
    CookieCache.is_valid cacheW 2000 = true ∧
    CookieCache.is_valid ⟨[], 1000⟩ 2000 = false ∧
    CookieCache.is_valid cacheW (cacheW.last_updated + CookieCache.max_age) = false := by
  refine ⟨?_, ?_, ?_⟩
  · exact (cookie_cache_validity cacheW 2000).1.mpr
      ⟨by simp [cacheW], by norm_num [cacheW, CookieCache.max_age]⟩
  · exact (cookie_cache_validity ⟨[], 1000⟩ 2000).2.1 rfl
  · exact (cookie_cache_validity cacheW 0).2.2

/-- Claim C3: the `sign_in_required` gate calls the wrapped function exactly
once on every call; it calls `sign_in` exactly once when the driver's cache
is `None` or invalid, and not at all when the cache is valid — regardless
of what `sign_in` itself does, so a failed sign-in does not block the
wrapped call either. -/
theorem auth_gate_counts {D β : Type} (cacheOf : D → Option CookieCache)
    (now : ℚ) (signIn : D → D) (func : D → D × β) (d : D) :
    ((sign_in_required cacheOf now signIn func d).2.2.count GateEvent.funcCall = 1) ∧
    (cacheOf d = none →
      (sign_in_required cacheOf now signIn func d).2.2.count GateEvent.signInCall = 1) ∧
    (∀ c, cacheOf d = some c → c.is_valid now = false →
      (sign_in_required cacheOf now signIn func d).2.2.count GateEvent.signInCall = 1) ∧
    (∀ c, cacheOf d = some c → c.is_valid now = true →
      (sign_in_required cacheOf now signIn func d).2.2.count GateEvent.signInCall = 0) := by
  have htrace : (sign_in_required cacheOf now signIn func d).2.2
      = (if needsSignIn (cacheOf d) now then [GateEvent.signInCall] else [])
        ++ [GateEvent.funcCall] := by
    by_cases h : needsSignIn (cacheOf d) now <;> simp [sign_in_required, h]
  refine ⟨?_, ?_, ?_, ?_⟩
  · rw [htrace]
    by_cases h : needsSignIn (cacheOf d) now <;> simp [h] <;> rfl
  · intro hc
    rw [htrace]
    have : needsSignIn (cacheOf d) now = true := by rw [hc]; rfl
    simp [this]
    rfl
  · intro c hc hv
    rw [htrace]
    have : needsSignIn (cacheOf d) now = true := by rw [hc]; simp [needsSignIn, hv]
    simp [this]
    rfl
  · intro c hc hv
    rw [htrace]
    have : needsSignIn (cacheOf d) now = false := by rw [hc]; simp [needsSignIn, hv]
    simp [this]
    rfl

/-- Concrete instance of `auth_gate_counts`: with an absent cache the gate
signs in once and calls the wrapped function once; with a valid cache it
does not sign in but still calls the wrapped function once. -/
theorem auth_gate_counts_case :
    ((sign_in_required (fun _ : Unit => none) 0 id (fun u => (u, 7)) ()).2.2.count
        GateEvent.signInCall = 1) ∧
    ((sign_in_required (fun _ : Unit => some cacheW) 2000 id (fun u => (u, 7)) ()).2.2.count
        GateEvent.signInCall = 0) ∧
    ((sign_in_required (fun _ : Unit => some cacheW) 2000 id (fun u => (u, 7)) ()).2.2.count
        GateEvent.funcCall = 1) := by
  refine ⟨?_, ?_, ?_⟩
  · exact (auth_gate_counts (fun _ : Unit => none) 0 id (fun u => (u, 7)) ()).2.1 rfl
  · exact (auth_gate_counts (fun _ : Unit => some cacheW) 2000 id
      (fun u => (u, 7)) ()).2.2.2 cacheW rfl
      (by norm_num [CookieCache.is_valid, cacheW, CookieCache.max_age])
  · exact (auth_gate_counts (fun _ : Unit => some cacheW) 2000 id
      (fun u => (u, 7)) ()).1

/-- Claim C10: `sign_in` is atomic with respect to the cookie cache.  If any
step of the `try` block fails (navigation, either credential field, or the
submit click), it returns `False` and leaves both the in-memory cache and
the persisted cache file exactly as they were; if all steps succeed it
returns `True` and both the in-memory cache and the persisted file hold
the freshly captured cache. -/
theorem sign_in_atomic (e : SignInEnv) (st : DriverState) :
    ((e.navOk && e.userFieldOk && e.passFieldOk && e.submitOk) = false →
      sign_in e st = (false, st)) ∧
    ((e.navOk && e.userFieldOk && e.passFieldOk && e.submitOk) = true →
      sign_in e st = (true, ⟨some ⟨e.cookies, e.now⟩, some ⟨e.cookies, e.now⟩⟩)) := by
  constructor <;> intro h <;>
    cases hn : e.navOk <;> cases hu : e.userFieldOk <;>
    cases hp : e.passFieldOk <;> cases hs : e.submitOk <;>
    simp_all [sign_in, signInTryBlock, save_cache]

/-- Concrete instance of `sign_in_atomic`: a failed navigation leaves an
empty driver state untouched, and a fully successful run installs and
persists the captured cache. -/
theorem sign_in_atomic_case :
    sign_in envNavFail ⟨none, none⟩ = (false, ⟨none, none⟩) ∧
    sign_in envOk ⟨none, none⟩
      = (true, ⟨some ⟨envOk.cookies, envOk.now⟩, some ⟨envOk.cookies, envOk.now⟩⟩) :=
  ⟨(sign_in_atomic envNavFail ⟨none, none⟩).1 rfl,
   (sign_in_atomic envOk ⟨none, none⟩).2 rfl⟩

/-- Claim C1: in every run of the page loop that finds a submit-ready
control (first at iteration `i`, all earlier iterations continuing
normally), the submit button is scrolled into view, and it is clicked iff
the submit-enabled flag holds — i.e. iff `config["DEBUG"] == "False"`;
with the flag off it is never clicked anywhere in the run. -/
theorem submit_gating (cfg : Config) (br : Nat → BrowserStep) (i : Nat)
    (h : findsSubmitAt br 0 max_pages i) :
    (applyLoop cfg br 0 max_pages).1 = FlowResult.ok true ∧
    Action.scrollSubmit ∈ (applyLoop cfg br 0 max_pages).2.1 ∧
    (Action.clickSubmit ∈ (applyLoop cfg br 0 max_pages).2.1 ↔
      submitEnabled cfg = true) := by
  obtain ⟨h1, h2, h3, h4⟩ := h
  have hmain := applyLoopAux_findsSubmit cfg br max_pages 0 i h1 (by omega) h3 h4
  simpa [applyLoop] using hmain

/-- Concrete instance of `submit_gating`: with `DEBUG = "False"` the found
submit button is clicked, with `DEBUG = "True"` it is scrolled into view
but never clicked. -/
theorem submit_gating_case :
    Action.clickSubmit ∈ (applyLoop cfgLive brSubmit 0 max_pages).2.1 ∧
    Action.scrollSubmit ∈ (applyLoop cfgDbg brSubmit 0 max_pages).2.1 ∧
    Action.clickSubmit ∉ (applyLoop cfgDbg brSubmit 0 max_pages).2.1 := by
  have hf : findsSubmitAt brSubmit 0 max_pages 0 :=
    ⟨Nat.le_refl 0, by norm_num [max_pages], rfl,
      fun j hj1 hj2 => absurd hj2 (by omega)⟩
  refine ⟨(submit_gating cfgLive brSubmit 0 hf).2.2.mpr rfl,
    (submit_gating cfgDbg brSubmit 0 hf).2.1, fun hmem => ?_⟩
  have hen := (submit_gating cfgDbg brSubmit 0 hf).2.2.mp hmem
  simp [submitEnabled, cfgDbg] at hen

/-- Claim C4: the page loop performs at most `max_pages = 1000` iterations
for every configuration and every browser behaviour, and when every page
classifies as `Unknown` it terminates after exactly 1000 iterations. -/
theorem loop_iteration_bound (cfg : Config) (br : Nat → BrowserStep) :
    max_pages = 1000 ∧
    (applyLoop cfg br 0 max_pages).2.2 ≤ max_pages ∧
    ((∀ i, (br i).submitPresent = false ∧ (br i).titleFound = true ∧
        classify (br i).titleText = PageKind.unknown) →
      applyLoop cfg br 0 max_pages = (FlowResult.ok true, [], max_pages)) := by
  refine ⟨rfl, ?_, ?_⟩
  · have h := applyLoopAux_pages_le cfg br max_pages 0
    simpa [applyLoop] using h
  · intro h
    have hrun := applyLoopAux_all_unknown cfg br h max_pages 0
    simpa [applyLoop] using hrun

/-- Concrete instance of `loop_iteration_bound`: a browser that always
shows an unrecognised page makes the loop stop after exactly 1000
iterations. -/
theorem loop_iteration_bound_case :
    applyLoop cfgDbg brUnknown 0 max_pages = (FlowResult.ok true, [], max_pages) :=
  (loop_iteration_bound cfgDbg brUnknown).2.2 (fun _ => ⟨rfl, rfl, rfl⟩)

/-- Claim C5 (against the code): when the loop exhausts its 1000-iteration
bound without ever finding a submit-ready control (here: every page is an
unrecognised heading, so the action trace is empty and in particular holds
no scroll of a submit control), `apply_to` falls through to its trailing
`return True` — it reports success, not the failure the spec requires. -/
theorem loop_exhaustion_returns_true :
    applyLoop cfgLive brUnknown 0 max_pages = (FlowResult.ok true, [], 1000) ∧
    Action.scrollSubmit ∉ (applyLoop cfgLive brUnknown 0 max_pages).2.1 ∧
    (FlowResult.ok true : FlowResult) ≠ FlowResult.ok false := by
  have h := applyLoopAux_all_unknown cfgLive brUnknown
    (fun _ => ⟨rfl, rfl, rfl⟩) max_pages 0
  have h1 : applyLoop cfgLive brUnknown 0 max_pages = (FlowResult.ok true, [], 1000) := by
    simpa [applyLoop, max_pages] using h
  refine ⟨h1, fun hmem => ?_, by decide⟩
  rw [h1] at hmem
  simp at hmem

/-- Claim C6 (against the code): when the first application page has no
submit button and no readable `h3.t-16` heading, the `find_element` call
raises `NoSuchElementException` and nothing in `apply_to` catches it: the
run ends in an escaped exception, not in a logged `False` return.  (The
source's `if not page_title: return False` guard is unreachable because a
located `WebElement` is always truthy.) -/
theorem missing_title_exception_escapes :
    apply_to cfgLive ⟨true, brNoTitle⟩ "https://www.linkedin.com/jobs/view/123"
      = (FlowResult.exn,
          [Action.navigate "https://www.linkedin.com/jobs/view/123",
            Action.clickApply], 1) ∧
    (FlowResult.exn : FlowResult) ≠ FlowResult.ok false := by
  constructor
  · have hstep : applyLoop cfgLive brNoTitle 0 max_pages = (FlowResult.exn, [], 1) := by
      have h := applyLoopAux_title_exn_step cfgLive brNoTitle 0 999 rfl rfl
      simpa [applyLoop, max_pages] using h
    simp [apply_to, validate_linkedin_url, hstep]
  · decide

/-- Claim C7 counterexample: the URL `https://jobs.example.com/view/123`,
which the claim says passes the target-URL validation, is rejected by
`validate_linkedin_url`. -/
theorem jobs_example_url_rejected :
    validate_linkedin_url "https://jobs.example.com/view/123" = false := by
  decide

set_option maxRecDepth 4000 in
/-- Claim C7 (amended): the URL `https://www.linkedin.com/jobs/view/123`
passes validation, `https://example.com/other` fails it, and every URL
failing validation makes `apply_to` return `False` immediately with an
empty browser-action trace — in particular no navigation happens. -/
theorem url_validation_gate (cfg : Config) (br : Browser) (url : String)
    (h : validate_linkedin_url url = false) :
    apply_to cfg br url = (FlowResult.ok false, [], 0) ∧
    validate_linkedin_url "https://www.linkedin.com/jobs/view/123" = true ∧
    validate_linkedin_url "https://example.com/other" = false := by
  refine ⟨?_, by decide, by decide⟩
  simp [apply_to, h]

/-- Concrete instance of `url_validation_gate`: a non-job-posting URL is
aborted with no browser action at all. -/
theorem url_validation_gate_case :
    apply_to cfgLive ⟨true, brUnknown⟩ "https://example.com/other"
      = (FlowResult.ok false, [], 0) :=
  (url_validation_gate cfgLive ⟨true, brUnknown⟩ "https://example.com/other"
    (by decide)).1

/-- One pass of the contact-info field handler is idempotent on a single
field: a second pass neither changes the field nor writes again. -/
theorem handle_contact_info_field_idem (phone : String) (f : TextInputEl) :
    handle_contact_info_field phone (handle_contact_info_field phone f).1
      = ((handle_contact_info_field phone f).1, 0) := by
  by_cases h : (f.label == "Mobile phone number" && f.value != phone) = true
  · rw [Bool.and_eq_true] at h
    simp [handle_contact_info_field, WebInput.send_keys, WebInput.clear,
      h.1, h.2]
  · simp only [handle_contact_info_field, if_neg h]

/-- Claim C8 counterexample: when the phone field already holds the
configured number, invoking the ContactInfo handler twice performs zero
writes in total — not the "exactly one write" the claim states. -/
theorem contact_info_zero_writes :
    (handle_contact_info_page "5551234"
        [⟨"Mobile phone number", "5551234"⟩]).2
      + (handle_contact_info_page "5551234"
          (handle_contact_info_page "5551234"
            [⟨"Mobile phone number", "5551234"⟩]).1).2 = 0 := by
  decide

/-- Claim C8 (amended): the ContactInfo handler writes the phone field only
when its current value differs from the configured number — the first pass
performs exactly one write per differing phone-labelled field (so at most
one for a given field, and exactly one when the value initially differs),
and a second pass with the same number is a no-op: it changes no field and
performs zero writes. -/
theorem contact_info_idempotent (phone : String) (fields : List TextInputEl) :
    handle_contact_info_page phone (handle_contact_info_page phone fields).1
      = ((handle_contact_info_page phone fields).1, 0) ∧
    (handle_contact_info_page phone fields).2
      = (fields.filter
          (fun f => f.label == "Mobile phone number" && f.value != phone)).length := by
  induction fields with
  | nil => simp [handle_contact_info_page]
  | cons f rest ih =>
    obtain ⟨ih1, ih2⟩ := ih
    constructor
    · simp only [handle_contact_info_page]
      rw [handle_contact_info_field_idem phone f, ih1]
      simp
    · simp only [handle_contact_info_page, List.filter_cons]
      by_cases hc : (f.label == "Mobile phone number" && f.value != phone) = true
      · simp [handle_contact_info_field, hc, ih2, Nat.add_comm]
      · simp [handle_contact_info_field, hc, ih2]

/-- Claim C9 counterexample: `LnTextInput.answer_default` does not set the
field to the literal string `0` — on a field holding `5` it appends,
producing `50`. -/
theorem text_default_not_zero :
    LnTextInput.answer_default "5" = "50" ∧
    LnTextInput.answer_default "5" ≠ "0" := by
  exact ⟨rfl, by decide⟩

/-- Claim C9 (amended): `TextField.answerDefault` appends the literal
string `0` to the field's current value via `send_keys` (so the value
becomes exactly `0` only when the field was empty), while
`SelectField.answerDefault` and `RadioGroup.answerDefault` choose the last
option in document order whenever options are present. -/
theorem answer_default_spec :
    (∀ v : String, LnTextInput.answer_default v = v ++ "0") ∧
    LnTextInput.answer_default "" = "0" ∧
    (∀ (α : Type) (options : List α) (h : options ≠ []),
      LnSelectInput.answer_default options = some (options.getLast h)) ∧
    (∀ (α : Type) (options : List α) (h : options ≠ []),
      LnRadioInput.answer_default options = some (options.getLast h)) := by
  refine ⟨fun v => rfl, rfl, ?_, ?_⟩ <;> intro α options h <;>
    simp [LnSelectInput.answer_default, LnRadioInput.answer_default,
      List.length_pos, h, List.getLast?_eq_getLast options h]

/-- Concrete instance of `answer_default_spec`: on options `[1, 2, 3]` both
the select and the radio default answers pick `3`, and the text default on
an empty field yields `0`. -/
theorem answer_default_case :
    LnSelectInput.answer_default [1, 2, 3] = some 3 ∧
    LnRadioInput.answer_default [1, 2, 3] = some 3 ∧
    LnTextInput.answer_default "" = "0" := by
  have h := answer_default_spec
  refine ⟨?_, ?_, h.2.1⟩
  · rw [h.2.2.1 Nat [1, 2, 3] (by decide)]
    rfl
  · rw [h.2.2.2 Nat [1, 2, 3] (by decide)]
    rfl

end ReplaceableGPT
